import Mathlib

/-!
Verification development for the crawler-system backend
(src/backend/main.py, src/backend/connection_manager.py,
src/backend/database.py).

The backend is shallowly embedded: Python dicts keyed by strings become
association lists over String, DynamoDB numbers (Decimals converted by
convert_decimal) become Int, a raw stored item becomes a structure of
Option fields (absent attribute = none), HTTP endpoint handlers become
pure functions from a store model to a response, a successor store and
the list of broadcast calls they perform, and WebSocket channels become
Nat identifiers.
-/

namespace Crawler

/-- Python dict lookup (d.get(k)): first binding for the key, if any. -/
def alookup {β : Type} (k : String) : List (String × β) → Option β
  | [] => none
  | (a, b) :: rest => if k = a then some b else alookup k rest

/-- Python dict assignment (d[k] = v): replace the binding if the key is
present, otherwise append a fresh binding. -/
def alistSet {β : Type} (k : String) (v : β) : List (String × β) → List (String × β)
  | [] => [(k, v)]
  | (a, b) :: rest => if k = a then (k, v) :: rest else (a, b) :: alistSet k v rest

/-- Python dict deletion (del d[k]). -/
def alistRemove {β : Type} (k : String) : List (String × β) → List (String × β)
  | [] => []
  | (a, b) :: rest => if k = a then alistRemove k rest else (a, b) :: alistRemove k rest

/-! ## Data model (raw stored items and the projected character view) -/

/-- Stored hp map: a DynamoDB map whose keys may individually be absent. -/
structure RawHp where
  current : Option Int
  max : Option Int
  temp : Option Int
deriving DecidableEq

/-- One inventory stack entry as stored (and as written back by the code):
name is always written by the code paths that create entries, but type,
count and stats may be absent in legacy data. -/
structure InvItem where
  name : String
  type : Option String
  count : Option Int
  stats : Option (List (String × Int))
deriving DecidableEq

/-- One equipment slot value (models EquipmentSlot in models.py as far as
the projection passes it through). -/
structure EquipSlot where
  name : String
  type : Option String
  stats : Option (List (String × Int))
deriving DecidableEq

/-- The equipment map as stored: slot name to optional slot content. -/
abbrev Equip := List (String × Option EquipSlot)

/-- A raw item as returned by table.get_item after convert_decimal: every
top-level attribute may be absent. -/
structure RawItem where
  name : Option String
  race : Option String
  player_class : Option String
  level : Option Int
  gold : Option Int
  hp : Option RawHp
  stats : Option (List (String × Int))
  skills : Option (List (String × Int))
  feats : Option (List String)
  inventory : Option (List InvItem)
  equipment : Option Equip
deriving DecidableEq

/-- A raw item with every attribute absent. -/
def emptyRaw : RawItem :=
  { name := none, race := none, player_class := none, level := none,
    gold := none, hp := none, stats := none, skills := none,
    feats := none, inventory := none, equipment := none }

/-- The hp block of the projected view (always fully populated). -/
structure HpView where
  current : Int
  max : Int
  temp : Int
deriving DecidableEq

/-- The projected character view built by get_character_from_db in
src/backend/main.py lines 75-94: every field present. -/
structure Character where
  name : String
  race : String
  player_class : String
  level : Int
  gold : Int
  hp : HpView
  stats : List (String × Int)
  skills : List (String × Int)
  feats : List String
  inventory : List InvItem
  equipment : Equip
deriving DecidableEq

/-- Default stats map used when the stats attribute is absent
(main.py lines 86-89). -/
def defaultStats : List (String × Int) :=
  [("strength", 10), ("dexterity", 10), ("constitution", 10),
   ("intelligence", 10), ("charisma", 10)]

/-- The field-by-field projection of main.py lines 75-94 (the dictionary
literal assembled from item.get calls with defaults); identical code in
src/backend/database.py get_character lines 37-56.  Note hp.temp is set
to the literal 0 regardless of storage. -/
def projectItem (item : RawItem) : Character :=
  { name := item.name.getD "Unknown"
    race := item.race.getD "Unknown"
    player_class := item.player_class.getD "Crawler"
    level := item.level.getD 1
    gold := item.gold.getD 0
    hp := { current := (item.hp.getD ⟨none, none, none⟩).current.getD 10
            max := (item.hp.getD ⟨none, none, none⟩).max.getD 10
            temp := 0 }
    stats := item.stats.getD defaultStats
    skills := item.skills.getD []
    feats := item.feats.getD []
    inventory := item.inventory.getD []
    equipment := item.equipment.getD [] }

/-! ## Record Store model

The DynamoDB table holds at most one item per character id (pk CRAWL#101,
sk PLAYER#id — the sort key is a bijective image of the id, so we key the
model directly by the id).  The flag failing models the store raising
botocore ClientError on every call. -/

structure Store where
  recs : List (String × RawItem)
  failing : Bool
deriving DecidableEq

/-- Outcome of table.get_item. -/
inductive DbGetResult where
  | found (item : RawItem)
  | absent
  | clientError (msg : String)
deriving DecidableEq

/-- table.get_item on the key for a character id (main.py line 67). -/
def dbGet (s : Store) (cid : String) : DbGetResult :=
  if s.failing then .clientError "ClientError"
  else
    match alookup cid s.recs with
    | some item => .found item
    | none => .absent

/-- get_character_from_db, main.py lines 64-98: returns None both when the
item is absent and when the store raises ClientError (the except branch
prints and returns None). -/
def get_character_from_db (s : Store) (cid : String) : Option Character :=
  match dbGet s cid with
  | .found item => some (projectItem item)
  | .absent => none
  | .clientError _ => none

/-- update_item SET inventory = :inv (main.py lines 174-178 and 303-307).
DynamoDB creates the item when the key is absent. -/
def storeSetInventory (s : Store) (cid : String) (inv : List InvItem) : Store :=
  match alookup cid s.recs with
  | some raw => { s with recs := alistSet cid { raw with inventory := some inv } s.recs }
  | none => { s with recs := alistSet cid { emptyRaw with inventory := some inv } s.recs }

/-- update_item SET #l = #l + 1 (main.py lines 187-192): DynamoDB raises a
ClientError (ValidationException) when the item or its level attribute is
absent, since the expression reads the existing value. -/
def storeIncLevel (s : Store) (cid : String) : Except String Store :=
  if s.failing then .error "ClientError"
  else
    match alookup cid s.recs with
    | some raw =>
      match raw.level with
      | some n => .ok { s with recs := alistSet cid { raw with level := some (n + 1) } s.recs }
      | none => .error "ClientError"
    | none => .error "ClientError"

/-- update_item SET gold = if_not_exists(gold, 0) + :val (main.py lines
228-233): total, creates the item when absent. -/
def storeIncGold (s : Store) (cid : String) (amount : Int) : Except String Store :=
  if s.failing then .error "ClientError"
  else
    match alookup cid s.recs with
    | some raw =>
      .ok { s with recs := alistSet cid { raw with gold := some (raw.gold.getD 0 + amount) } s.recs }
    | none =>
      .ok { s with recs := alistSet cid { emptyRaw with gold := some amount } s.recs }

/-- update_item SET #h.#c = #h.#c + :val (main.py lines 255-261): raises a
ClientError when the item, the hp map or hp.current is absent. -/
def storeIncHp (s : Store) (cid : String) (amount : Int) : Except String Store :=
  if s.failing then .error "ClientError"
  else
    match alookup cid s.recs with
    | some raw =>
      match raw.hp with
      | some h =>
        match h.current with
        | some n =>
          .ok { s with recs := alistSet cid { raw with hp := some { h with current := some (n + amount) } } s.recs }
        | none => .error "ClientError"
      | none => .error "ClientError"
    | none => .error "ClientError"

/-! ## Events and responses -/

/-- A broadcast event payload: the dicts passed to manager.broadcast. -/
inductive Event where
  | update (payload : Option Character)
  | log (message : String)
  | rollResult (skill : String) (d20 : Int) (mod : Int) (total : Int) (crit : Bool)
deriving DecidableEq

/-- An HTTP response: either the success payload or an HTTPException with
status and optional detail. -/
inductive Resp (α : Type) where
  | ok (value : α)
  | httpError (status : Nat) (detail : Option String)
deriving DecidableEq

/-- Result of running one endpoint handler: the HTTP response, the store
afterwards, and the broadcast calls made, in order, as (char id, event). -/
structure OpResult (α : Type) where
  resp : Resp α
  store : Store
  events : List (String × Event)
deriving DecidableEq

/-- Python str.title() restricted to ASCII: the first letter of each
alphabetic run is uppercased, the rest lowercased. -/
def titleCaseGo : Bool → List Char → List Char
  | _, [] => []
  | prevAlpha, ch :: rest =>
    let ch2 := if ch.isAlpha then (if prevAlpha then ch.toLower else ch.toUpper) else ch
    ch2 :: titleCaseGo ch.isAlpha rest

/-- Python str.title() (ASCII fragment used by the log message). -/
def titleCase (str : String) : String :=
  String.mk (titleCaseGo false str.data)

/-! ## Endpoint handlers -/

/-- GET /character/{char_id}, main.py lines 212-217. -/
def get_character (s : Store) (cid : String) : Resp Character :=
  match get_character_from_db s cid with
  | none => .httpError 404 (some "Character not found")
  | some data => .ok data

/-- POST /character/{char_id}/roll, main.py lines 105-146.  The drawn die
value d20 is passed in explicitly (random.randint(1, 20) at line 119). -/
def roll_skill (s : Store) (cid : String) (skill_name : String) (d20 : Int) : OpResult Int :=
  match get_character_from_db s cid with
  | none => ⟨.httpError 404 none, s, []⟩
  | some char_data =>
    let skill := skill_name.toLower
    let modifier := (alookup skill char_data.skills).getD 0
    let total := d20 + modifier
    let critMsg := if d20 = 20 then " [CRITICAL SUCCESS!]"
                   else if d20 = 1 then " [CRITICAL FAILURE!]" else ""
    let titled := titleCase skill_name
    let logMsg := s!"Rolled {titled}: {d20} + {modifier} = {total}{critMsg}"
    ⟨.ok total, s,
      [(cid, .log logMsg),
       (cid, .rollResult skill_name d20 modifier total (d20 == 20 || d20 == 1))]⟩

/-- Request body of add-item (ItemModel in main.py lines 17-21; count
defaults to 1 at parse time, so it is always present here). -/
structure ItemModel where
  name : String
  type : String
  count : Int
  stats : Option (List (String × Int))
deriving DecidableEq

/-- The stacking scan of main.py lines 159-171: the first stack whose name
and type both match gets its count (missing count read as 1) increased by
item.count; if no stack matches, item.dict() is appended. -/
def addStack : List InvItem → ItemModel → List InvItem
  | [], item => [⟨item.name, some item.type, some item.count, item.stats⟩]
  | it :: rest, item =>
    if it.name = item.name ∧ it.type = some item.type then
      { it with count := some (it.count.getD 1 + item.count) } :: rest
    else
      it :: addStack rest item

/-- POST /character/{char_id}/add-item, main.py lines 148-178.  The
function body ends at the update_item call: the broadcast and return
statements intended for this endpoint sit unreachable inside level_up
(lines 205-210, after its return, referencing the variable item which is
not in scope there), so on success nothing is broadcast and the handler
returns None (modelled as ok ()). -/
def add_item (s : Store) (cid : String) (item : ItemModel) : OpResult Unit :=
  match get_character_from_db s cid with
  | none => ⟨.httpError 404 none, s, []⟩
  | some char_data =>
    let inventory := addStack char_data.inventory item
    ⟨.ok (), storeSetInventory s cid inventory, []⟩

/-- POST /character/{char_id}/level-up, main.py lines 180-203.  On a store
error the except branch returns 500; otherwise the handler re-reads the
record, broadcasts update then log, and returns the new level.  If the
re-read returned None the update broadcast (payload null) still happens
first and the f-string subscription then raises (modelled as 500). -/
def level_up (s : Store) (cid : String) : OpResult Int :=
  match storeIncLevel s cid with
  | .error e => ⟨.httpError 500 (some e), s, []⟩
  | .ok s1 =>
    match get_character_from_db s1 cid with
    | some updated_char =>
      let newLevel := updated_char.level
      ⟨.ok newLevel, s1,
        [(cid, .update (some updated_char)),
         (cid, .log s!"LEVEL UP! You are now Level {newLevel}!")]⟩
    | none => ⟨.httpError 500 (some "TypeError"), s1, [(cid, .update none)]⟩

/-- POST /character/{char_id}/adjust-gold, main.py lines 219-247.  On a
store error the except branch returns 500; otherwise update and log are
broadcast and new_gold is read off the re-projected record (the log
message does not consult the record, so it is broadcast even when the
re-read returned None; the None subscript then raises at the return). -/
def adjust_gold (s : Store) (cid : String) (amount : Int) : OpResult Int :=
  match storeIncGold s cid amount with
  | .error e => ⟨.httpError 500 (some e), s, []⟩
  | .ok s1 =>
    let action := if amount > 0 then "Received" else "Paid"
    let amt := if amount < 0 then -amount else amount
    let logMsg := s!"FINANCE: {action} {amt} Gold."
    match get_character_from_db s1 cid with
    | some updated_char =>
      ⟨.ok updated_char.gold, s1,
        [(cid, .update (some updated_char)), (cid, .log logMsg)]⟩
    | none =>
      ⟨.httpError 500 (some "TypeError"), s1,
        [(cid, .update none), (cid, .log logMsg)]⟩

/-- POST /character/{char_id}/adjust-hp, main.py lines 250-276.  The log
message reads hp.current off the re-projected record, so when the re-read
returned None only the update broadcast (payload null) happens before the
subscript raises (modelled as 500). -/
def adjust_hp (s : Store) (cid : String) (amount : Int) : OpResult Unit :=
  match storeIncHp s cid amount with
  | .error e => ⟨.httpError 500 (some e), s, []⟩
  | .ok s1 =>
    match get_character_from_db s1 cid with
    | some updated_char =>
      let action := if amount > 0 then "Healed" else "Took Damage"
      let amt := if amount < 0 then -amount else amount
      let cur := updated_char.hp.current
      ⟨.ok (), s1,
        [(cid, .update (some updated_char)),
         (cid, .log s!"{action} ({amt}). HP is now {cur}.")]⟩
    | none => ⟨.httpError 500 (some "TypeError"), s1, [(cid, .update none)]⟩

/-- POST /character/{char_id}/use-item, main.py lines 278-313.  The index
is validated against the projected inventory; count missing is read as 1;
count greater than 1 is decremented in place, otherwise the entry is
popped; then the inventory is written back, the record re-read, and
update then log broadcast. -/
def use_item (s : Store) (cid : String) (item_index : Int) : OpResult (List InvItem) :=
  match get_character_from_db s cid with
  | none => ⟨.httpError 404 none, s, []⟩
  | some char_data =>
    let inventory := char_data.inventory
    if item_index < 0 ∨ (inventory.length : Int) ≤ item_index then
      ⟨.httpError 400 (some "Invalid item index"), s, []⟩
    else
      let i := item_index.toNat
      let item := inventory.getD i ⟨"", none, none, none⟩
      let item_name := item.name
      let current_count := item.count.getD 1
      let inv2 :=
        if current_count > 1 then
          inventory.set i { item with count := some (current_count - 1) }
        else
          inventory.eraseIdx i
      let s1 := storeSetInventory s cid inv2
      let logMsg := s!"Used {item_name}."
      match get_character_from_db s1 cid with
      | some updated_char =>
        ⟨.ok inv2, s1, [(cid, .update (some updated_char)), (cid, .log logMsg)]⟩
      | none =>
        ⟨.ok inv2, s1, [(cid, .update none), (cid, .log logMsg)]⟩

/-! ## The two ConnectionManager classes

main.py lines 28-50 defines the ConnectionManager instance actually used
by every endpoint; src/backend/connection_manager.py defines a second,
unused ConnectionManager whose disconnect and broadcast differ.  Observer
channels are modelled by Nat identifiers; a broadcast takes the set bad
of channels whose send raises. -/

/-- The registry: character id to list of connected channels. -/
abbrev Registry := List (String × List Nat)

namespace CMmain

/-- main.py lines 32-36: create the entry on first connect, then append. -/
def connect (r : Registry) (cid : String) (w : Nat) : Registry :=
  alistSet cid ((alookup cid r).getD [] ++ [w]) r

/-- main.py lines 38-42: list.remove raises ValueError when the channel is
not in the list (result none, registry unchanged at the raise point);
otherwise the channel is removed and an emptied entry is deleted. -/
def disconnect (r : Registry) (cid : String) (w : Nat) : Option Registry :=
  match alookup cid r with
  | none => some r
  | some ws =>
    if w ∈ ws then
      let ws2 := ws.erase w
      some (if ws2 = [] then alistRemove cid r else alistSet cid ws2 r)
    else none

/-- main.py lines 44-48: send to each channel in order with no exception
handling.  Returns the channels actually delivered to and the exception,
if one escaped: the first failing send aborts the loop and propagates. -/
def sendAll (bad : List Nat) : List Nat → List Nat × Option Nat
  | [] => ([], none)
  | w :: rest =>
    if w ∈ bad then ([], some w)
    else
      let p := sendAll bad rest
      (w :: p.1, p.2)

/-- main.py broadcast: no-op when the character has no entry. -/
def broadcast (r : Registry) (bad : List Nat) (cid : String) : List Nat × Option Nat :=
  match alookup cid r with
  | none => ([], none)
  | some ws => sendAll bad ws

end CMmain

namespace CMmod

/-- connection_manager.py lines 17-23: membership is checked before
remove, so the call never raises; an emptied entry is deleted.  The local
list after the guarded remove (Python mutates the entry in place) is the
inlined expression (if w ∈ ws then ws.erase w else ws). -/
def disconnect (r : Registry) (cid : String) (w : Nat) : Registry :=
  match alookup cid r with
  | none => r
  | some ws =>
    if (if w ∈ ws then ws.erase w else ws) = [] then alistRemove cid r
    else alistSet cid (if w ∈ ws then ws.erase w else ws) r

/-- connection_manager.py lines 29-36: each send is wrapped in try/except,
so a failing channel is skipped and the loop continues.  Returns the
channels delivered to; no exception ever escapes. -/
def sendAll (bad : List Nat) : List Nat → List Nat
  | [] => []
  | w :: rest => if w ∈ bad then sendAll bad rest else w :: sendAll bad rest

/-- connection_manager.py broadcast: no-op when the character has no entry. -/
def broadcast (r : Registry) (bad : List Nat) (cid : String) : List Nat :=
  match alookup cid r with
  | none => []
  | some ws => sendAll bad ws

end CMmod

/-- One registry operation: the websocket endpoint (main.py lines 315-322)
connects on open and disconnects on WebSocketDisconnect. -/
inductive RegOp where
  | connect (cid : String) (w : Nat)
  | disconnect (cid : String) (w : Nat)

/-- Run one operation against the main.py manager.  A disconnect that
raises ValueError leaves the registry unchanged (list.remove raises
before mutating, and the exception propagates past the del check). -/
def regStep (r : Registry) : RegOp → Registry
  | .connect cid w => CMmain.connect r cid w
  | .disconnect cid w => (CMmain.disconnect r cid w).getD r

/-- Run a sequence of operations from the empty registry (main.py). -/
def runOps (ops : List RegOp) : Registry :=
  ops.foldl regStep []

/-- Run one operation against the connection_manager.py manager (its
connect is the same up to a debug print). -/
def regStepMod (r : Registry) : RegOp → Registry
  | .connect cid w => CMmain.connect r cid w
  | .disconnect cid w => CMmod.disconnect r cid w

/-- Run a sequence of operations from the empty registry
(connection_manager.py). -/
def runOpsMod (ops : List RegOp) : Registry :=
  ops.foldl regStepMod []

/-! ## Concrete fixtures (store states used by witnesses) -/

/-- A stored record shaped like the seed data in reseed_carl.py, with a
gold attribute added so gold-reading paths are exercised. -/
def carlRaw : RawItem :=
  { name := some "Carl", race := some "Human",
    player_class := some "Dungeon Crawler", level := some 5,
    gold := some 5, hp := some ⟨some 40, some 40, none⟩,
    stats := some [("strength", 18), ("dexterity", 14), ("constitution", 16),
                   ("intelligence", 10), ("charisma", 12)],
    skills := some [("brawling", 5)], feats := some [],
    inventory := some [], equipment := some [("right_hand", none), ("body", none)] }

/-- A healthy store holding carl_001. -/
def carlStore : Store := ⟨[("carl_001", carlRaw)], false⟩

/-- The same store with the Record Store raising on every call. -/
def failCarlStore : Store := ⟨[("carl_001", carlRaw)], true⟩

/-- A reachable, empty store. -/
def emptyStore : Store := ⟨[], false⟩

/-- carl_001 with a three-potion stack and a single scroll, for the
use-item witnesses. -/
def invRaw : RawItem :=
  { carlRaw with inventory := some [⟨"Potion", some "Consumable", some 3, none⟩,
                                    ⟨"Scroll", some "Consumable", some 1, none⟩] }

/-- Store holding the stacked-inventory record. -/
def invStore : Store := ⟨[("carl_001", invRaw)], false⟩

/-- The add-item request body used by witnesses. -/
def potionItem : ItemModel := ⟨"Potion", "Consumable", 2, none⟩

/-! ## Helper lemmas on the association-list primitives -/

theorem lookup_mem {β : Type} (k : String) (v : β) :
    ∀ r : List (String × β), alookup k r = some v → (k, v) ∈ r := by
  intro r
  induction r with
  | nil => intro h; simp [alookup] at h
  | cons p rest ih =>
    intro h
    obtain ⟨a, b⟩ := p
    by_cases hk : k = a
    · subst hk
      simp [alookup] at h
      simp [h]
    · rw [alookup, if_neg hk] at h
      exact List.mem_cons_of_mem _ (ih h)

theorem mem_alistSet {β : Type} (k : String) (v : β) :
    ∀ (r : List (String × β)) (q : String × β),
      q ∈ alistSet k v r → q = (k, v) ∨ q ∈ r := by
  intro r
  induction r with
  | nil => intro q h; simp [alistSet] at h; exact Or.inl h
  | cons p rest ih =>
    intro q h
    obtain ⟨a, b⟩ := p
    by_cases hk : k = a
    · rw [alistSet, if_pos hk] at h
      rcases List.mem_cons.mp h with h1 | h2
      · exact Or.inl h1
      · exact Or.inr (List.mem_cons_of_mem _ h2)
    · rw [alistSet, if_neg hk] at h
      rcases List.mem_cons.mp h with h1 | h2
      · exact Or.inr (h1 ▸ List.mem_cons_self _ _)
      · rcases ih q h2 with h3 | h4
        · exact Or.inl h3
        · exact Or.inr (List.mem_cons_of_mem _ h4)

theorem mem_alistRemove {β : Type} (k : String) :
    ∀ (r : List (String × β)) (q : String × β), q ∈ alistRemove k r → q ∈ r := by
  intro r
  induction r with
  | nil => intro q h; simp [alistRemove] at h
  | cons p rest ih =>
    intro q h
    obtain ⟨a, b⟩ := p
    by_cases hk : k = a
    · rw [alistRemove, if_pos hk] at h
      exact List.mem_cons_of_mem _ (ih q h)
    · rw [alistRemove, if_neg hk] at h
      rcases List.mem_cons.mp h with h1 | h2
      · exact h1 ▸ List.mem_cons_self _ _
      · exact List.mem_cons_of_mem _ (ih q h2)

theorem lookup_alistSet_self {β : Type} (k : String) (v : β) :
    ∀ r : List (String × β), alookup k (alistSet k v r) = some v := by
  intro r
  induction r with
  | nil => simp [alistSet, alookup]
  | cons p rest ih =>
    obtain ⟨a, b⟩ := p
    by_cases hk : k = a
    · rw [alistSet, if_pos hk, alookup, if_pos rfl]
    · rw [alistSet, if_neg hk, alookup, if_neg hk]
      exact ih

theorem lookup_alistSet_ne {β : Type} (k k2 : String) (v : β) (hne : k2 ≠ k) :
    ∀ r : List (String × β), alookup k2 (alistSet k v r) = alookup k2 r := by
  intro r
  induction r with
  | nil => simp [alistSet, alookup, hne]
  | cons p rest ih =>
    obtain ⟨a, b⟩ := p
    by_cases hk : k = a
    · subst hk
      rw [alistSet, if_pos rfl, alookup, if_neg hne, alookup, if_neg hne]
    · rw [alistSet, if_neg hk, alookup, alookup]
      by_cases h2 : k2 = a
      · rw [if_pos h2, if_pos h2]
      · rw [if_neg h2, if_neg h2]
        exact ih

theorem lookup_alistRemove_self {β : Type} (k : String) :
    ∀ r : List (String × β), alookup k (alistRemove k r) = none := by
  intro r
  induction r with
  | nil => simp [alistRemove, alookup]
  | cons p rest ih =>
    obtain ⟨a, b⟩ := p
    by_cases hk : k = a
    · rw [alistRemove, if_pos hk]; exact ih
    · rw [alistRemove, if_neg hk, alookup, if_neg hk]; exact ih

theorem lookup_alistRemove_ne {β : Type} (k k2 : String) (hne : k2 ≠ k) :
    ∀ r : List (String × β), alookup k2 (alistRemove k r) = alookup k2 r := by
  intro r
  induction r with
  | nil => simp [alistRemove]
  | cons p rest ih =>
    obtain ⟨a, b⟩ := p
    by_cases hk : k = a
    · subst hk
      rw [alistRemove, if_pos rfl, alookup, if_neg hne]
      exact ih
    · rw [alistRemove, if_neg hk, alookup, alookup]
      by_cases h2 : k2 = a
      · rw [if_pos h2, if_pos h2]
      · rw [if_neg h2, if_neg h2]
        exact ih

/-- Gold attribute of the stored record for a character id, if any. -/
def goldOf (s : Store) (cid : String) : Option Int :=
  (alookup cid s.recs).bind RawItem.gold

/-- Inventory attribute of the stored record for a character id, if any. -/
def invOf (s : Store) (cid : String) : Option (List InvItem) :=
  (alookup cid s.recs).bind RawItem.inventory

/-- Hp attribute of the stored record for a character id, if any. -/
def hpOf (s : Store) (cid : String) : Option RawHp :=
  (alookup cid s.recs).bind RawItem.hp

/-- Level attribute of the stored record for a character id, if any. -/
def levelOf (s : Store) (cid : String) : Option Int :=
  (alookup cid s.recs).bind RawItem.level

/-- A successful projection forces: the store is reachable and the record
is present, and the result is its projection. -/
theorem get_some_inv (s : Store) (cid : String) (c : Character)
    (h : get_character_from_db s cid = some c) :
    s.failing = false ∧ ∃ raw, alookup cid s.recs = some raw ∧ c = projectItem raw := by
  unfold get_character_from_db dbGet at h
  by_cases hf : s.failing
  · simp [hf] at h
  · cases halk : alookup cid s.recs with
    | none => simp [hf, halk] at h
    | some raw =>
      simp only [hf, if_false, halk] at h
      refine ⟨by simpa using hf, raw, rfl, ?_⟩
      cases h
      rfl

/-- Writing an inventory then reading the inventory attribute gives it back. -/
theorem invOf_storeSetInventory (s : Store) (cid : String) (inv : List InvItem) :
    invOf (storeSetInventory s cid inv) cid = some inv := by
  unfold invOf storeSetInventory
  cases halk : alookup cid s.recs <;> simp [lookup_alistSet_self]

/-! ## Claim theorems -/

/-- Claim C5 (confirmed): for every stored record, the projection fills
each field absent in storage with the documented default (level 1, gold 0,
stats all 10, empty skills, feats and inventory, hp 10/10/0) and passes a
present field through; the projected Character structure is total, so
every documented top-level field is always present. -/
theorem c5_projection_defaults (raw : RawItem) :
    ((raw.level = none → (projectItem raw).level = 1) ∧
     (∀ v, raw.level = some v → (projectItem raw).level = v))
  ∧ ((raw.gold = none → (projectItem raw).gold = 0) ∧
     (∀ v, raw.gold = some v → (projectItem raw).gold = v))
  ∧ ((raw.stats = none → (projectItem raw).stats = defaultStats) ∧
     (∀ v, raw.stats = some v → (projectItem raw).stats = v))
  ∧ (raw.skills = none → (projectItem raw).skills = [])
  ∧ (raw.feats = none → (projectItem raw).feats = [])
  ∧ (raw.inventory = none → (projectItem raw).inventory = [])
  ∧ (raw.hp = none → (projectItem raw).hp = ⟨10, 10, 0⟩)
  ∧ (∀ h, raw.hp = some h →
      (projectItem raw).hp = ⟨h.current.getD 10, h.max.getD 10, 0⟩)
  ∧ (raw.equipment = none → (projectItem raw).equipment = []) := by
  refine ⟨⟨?_, ?_⟩, ⟨?_, ?_⟩, ⟨?_, ?_⟩, ?_, ?_, ?_, ?_, ?_, ?_⟩ <;>
    first
      | (intro h; simp [projectItem, h])
      | (intro v h; simp [projectItem, h])

/-- Witness for C5: the all-absent raw item projects to the documented
defaults, and a present level is passed through. -/
theorem c5_projection_defaults_witness :
    (projectItem emptyRaw).level = 1
  ∧ (projectItem emptyRaw).gold = 0
  ∧ (projectItem emptyRaw).stats = defaultStats
  ∧ (projectItem emptyRaw).skills = []
  ∧ (projectItem emptyRaw).hp = ⟨10, 10, 0⟩
  ∧ (projectItem carlRaw).level = 5 :=
  ⟨(c5_projection_defaults emptyRaw).1.1 rfl,
   (c5_projection_defaults emptyRaw).2.1.1 rfl,
   (c5_projection_defaults emptyRaw).2.2.1.1 rfl,
   (c5_projection_defaults emptyRaw).2.2.2.1 rfl,
   (c5_projection_defaults emptyRaw).2.2.2.2.2.2.1 rfl,
   (c5_projection_defaults carlRaw).1.2 5 rfl⟩

/-- Claim C7 (confirmed): on an existing character, the skill roll uses
the skills mapping value at the lower-cased name (0 when absent, never an
error), reports total d + modifier, flags critical exactly for die 1 or
20, and leaves the Record Store untouched. -/
theorem c7_roll_skill (s : Store) (cid skill_name : String) (d : Int) (c : Character)
    (hget : get_character_from_db s cid = some c) (h1 : 1 ≤ d) (h2 : d ≤ 20) :
    (roll_skill s cid skill_name d).store = s
  ∧ (roll_skill s cid skill_name d).resp =
      .ok (d + (alookup skill_name.toLower c.skills).getD 0)
  ∧ (∀ m, alookup skill_name.toLower c.skills = some m →
      (alookup skill_name.toLower c.skills).getD 0 = m)
  ∧ (alookup skill_name.toLower c.skills = none →
      (alookup skill_name.toLower c.skills).getD 0 = 0)
  ∧ (∃ msg, (roll_skill s cid skill_name d).events =
      [(cid, .log msg),
       (cid, .rollResult skill_name d ((alookup skill_name.toLower c.skills).getD 0)
          (d + (alookup skill_name.toLower c.skills).getD 0) (d == 20 || d == 1))])
  ∧ ((d == 20 || d == 1) = true ↔ d = 1 ∨ d = 20) := by
  refine ⟨?_, ?_, ?_, ?_, ?_, ?_⟩
  · simp [roll_skill, hget]
  · simp [roll_skill, hget]
  · intro m hm; simp [hm]
  · intro hm; simp [hm]
  · exact ⟨_, by simp [roll_skill, hget]; rfl⟩
  · simp only [Bool.or_eq_true, beq_iff_eq]
    constructor
    · intro h; exact h.symm
    · intro h; exact h.symm

/-- Witness for C7: rolling Brawling with die 20 on carl keeps the store,
totals 20 + 5, and is flagged critical. -/
theorem c7_roll_skill_witness :
    (roll_skill carlStore "carl_001" "Brawling" 20).store = carlStore
  ∧ (roll_skill carlStore "carl_001" "Brawling" 20).resp =
      .ok (20 + (alookup "Brawling".toLower (projectItem carlRaw).skills).getD 0)
  ∧ (((20 : Int) == 20 || (20 : Int) == 1) = true ↔ (20 : Int) = 1 ∨ (20 : Int) = 20) := by
  have h := c7_roll_skill carlStore "carl_001" "Brawling" 20 (projectItem carlRaw)
    (by decide) (by decide) (by decide)
  exact ⟨h.1, h.2.1, h.2.2.2.2.2⟩

/-- Claim C10 (confirmed): a successful level-up rewrites the stored
record to the same record with only the level attribute changed, to
exactly its old value plus one; hp, gold, stats, skills, feats, inventory
and equipment are untouched (the docstring about healing to max is not
implemented), and the response reports the new level. -/
theorem c10_level_up_frame (s : Store) (cid : String) (raw : RawItem) (n : Int)
    (hrec : alookup cid s.recs = some raw) (hlvl : raw.level = some n)
    (hfail : s.failing = false) :
    ∃ s1, storeIncLevel s cid = .ok s1
      ∧ alookup cid s1.recs = some { raw with level := some (n + 1) }
      ∧ (level_up s cid).store = s1
      ∧ (level_up s cid).resp = .ok (n + 1)
      ∧ ({ raw with level := some (n + 1) } : RawItem).hp = raw.hp
      ∧ ({ raw with level := some (n + 1) } : RawItem).gold = raw.gold
      ∧ ({ raw with level := some (n + 1) } : RawItem).stats = raw.stats
      ∧ ({ raw with level := some (n + 1) } : RawItem).skills = raw.skills
      ∧ ({ raw with level := some (n + 1) } : RawItem).feats = raw.feats
      ∧ ({ raw with level := some (n + 1) } : RawItem).inventory = raw.inventory
      ∧ ({ raw with level := some (n + 1) } : RawItem).equipment = raw.equipment
      ∧ ({ raw with level := some (n + 1) } : RawItem).name = raw.name := by
  refine ⟨{ s with recs := alistSet cid { raw with level := some (n + 1) } s.recs },
    ?_, ?_, ?_, ?_, rfl, rfl, rfl, rfl, rfl, rfl, rfl, rfl⟩
  · simp [storeIncLevel, hfail, hrec, hlvl]
  · exact lookup_alistSet_self cid _ s.recs
  · simp [level_up, storeIncLevel, hfail, hrec, hlvl, get_character_from_db, dbGet,
      lookup_alistSet_self]
  · simp [level_up, storeIncLevel, hfail, hrec, hlvl, get_character_from_db, dbGet,
      lookup_alistSet_self, projectItem]

/-- Witness for C10: levelling carl from 5 responds with 5 + 1 and stores
carl with only the level attribute changed. -/
theorem c10_level_up_frame_witness :
    (level_up carlStore "carl_001").resp = .ok (5 + 1)
  ∧ alookup "carl_001" (level_up carlStore "carl_001").store.recs =
      some { carlRaw with level := some (5 + 1) } := by
  obtain ⟨s1, _, h2, h3, h4, _⟩ :=
    c10_level_up_frame carlStore "carl_001" carlRaw 5 (by decide) rfl rfl
  exact ⟨h4, by rw [h3]; exact h2⟩

/-- Claim C3 counterexample: no endpoint takes or checks any credential.
Each of the four privileged requests here carries no credential (none
exists in the API surface), yet none is rejected: adjust-gold changes
stored gold from 5 to 15, adjust-hp changes stored hp.current from 40 to
33, level-up changes stored level from 5 to 6, and add-item writes the
granted stack into the stored inventory. -/
theorem c3_counterexample :
    ((adjust_gold carlStore "carl_001" 10).resp = .ok 15
      ∧ goldOf carlStore "carl_001" = some 5
      ∧ goldOf (adjust_gold carlStore "carl_001" 10).store "carl_001" = some 15)
  ∧ ((adjust_hp carlStore "carl_001" (-7)).resp = .ok ()
      ∧ hpOf carlStore "carl_001" = some ⟨some 40, some 40, none⟩
      ∧ hpOf (adjust_hp carlStore "carl_001" (-7)).store "carl_001" =
          some ⟨some 33, some 40, none⟩)
  ∧ ((level_up carlStore "carl_001").resp = .ok 6
      ∧ levelOf carlStore "carl_001" = some 5
      ∧ levelOf (level_up carlStore "carl_001").store "carl_001" = some 6)
  ∧ ((add_item carlStore "carl_001" potionItem).resp = .ok ()
      ∧ invOf carlStore "carl_001" = some []
      ∧ invOf (add_item carlStore "carl_001" potionItem).store "carl_001" =
          some [⟨"Potion", some "Consumable", some 2, none⟩]) := by
  decide

/-- Claim C3 amended: none of the four privileged operations (add item,
level up, adjust gold, adjust HP) performs any credential check; every
request, necessarily credential-less, proceeds to the Record Store and
mutates the stored record.  Shown for all four operations on any
reachable store holding the record (with the attributes each DynamoDB
update expression requires present). -/
theorem c3_amended_no_credential_check (s : Store) (cid : String) (amount : Int)
    (item : ItemModel) (raw : RawItem) (n m : Int) (h : RawHp)
    (hfail : s.failing = false) (hrec : alookup cid s.recs = some raw)
    (hlvl : raw.level = some n) (hhp : raw.hp = some h) (hcur : h.current = some m) :
    ((adjust_gold s cid amount).resp = .ok (raw.gold.getD 0 + amount)
      ∧ goldOf (adjust_gold s cid amount).store cid = some (raw.gold.getD 0 + amount))
  ∧ ((adjust_hp s cid amount).resp = .ok ()
      ∧ hpOf (adjust_hp s cid amount).store cid =
          some { h with current := some (m + amount) })
  ∧ ((level_up s cid).resp = .ok (n + 1)
      ∧ levelOf (level_up s cid).store cid = some (n + 1))
  ∧ ((add_item s cid item).resp = .ok ()
      ∧ invOf (add_item s cid item).store cid =
          some (addStack (projectItem raw).inventory item)) := by
  refine ⟨⟨?_, ?_⟩, ⟨?_, ?_⟩, ⟨?_, ?_⟩, ⟨?_, ?_⟩⟩
  · simp [adjust_gold, storeIncGold, hfail, hrec, get_character_from_db, dbGet,
      lookup_alistSet_self, projectItem]
  · simp [adjust_gold, storeIncGold, hfail, hrec, get_character_from_db, dbGet,
      goldOf, lookup_alistSet_self, projectItem]
  · simp [adjust_hp, storeIncHp, hfail, hrec, hhp, hcur, get_character_from_db, dbGet,
      lookup_alistSet_self, projectItem]
  · simp [adjust_hp, storeIncHp, hfail, hrec, hhp, hcur, get_character_from_db, dbGet,
      hpOf, lookup_alistSet_self, projectItem]
  · simp [level_up, storeIncLevel, hfail, hrec, hlvl, get_character_from_db, dbGet,
      lookup_alistSet_self, projectItem]
  · simp [level_up, storeIncLevel, hfail, hrec, hlvl, get_character_from_db, dbGet,
      levelOf, lookup_alistSet_self, projectItem]
  · simp [add_item, get_character_from_db, dbGet, hfail, hrec]
  · simp [add_item, get_character_from_db, dbGet, hfail, hrec,
      invOf_storeSetInventory]

/-- Witness for the amended C3: the four concrete credential-less
privileged calls on carl all succeed and mutate. -/
theorem c3_amended_witness :
    ((adjust_gold carlStore "carl_001" 10).resp = .ok (carlRaw.gold.getD 0 + 10)
      ∧ goldOf (adjust_gold carlStore "carl_001" 10).store "carl_001" =
          some (carlRaw.gold.getD 0 + 10))
  ∧ (adjust_hp carlStore "carl_001" 10).resp = .ok ()
  ∧ (level_up carlStore "carl_001").resp = .ok (5 + 1)
  ∧ (add_item carlStore "carl_001" potionItem).resp = .ok () := by
  have hall := c3_amended_no_credential_check carlStore "carl_001" 10 potionItem
    carlRaw 5 40 ⟨some 40, some 40, none⟩ rfl (by decide) rfl rfl rfl
  exact ⟨hall.1, hall.2.1.1, hall.2.2.1.1, hall.2.2.2.1⟩

/-- Claim C8 counterexample: with the Record Store raising on every call
and the record actually present, GET returns the same 404 with the same
detail as a genuinely absent record — the storage failure is not reported
distinctly from not-found. -/
theorem c8_counterexample :
    get_character failCarlStore "carl_001" = .httpError 404 (some "Character not found")
  ∧ get_character emptyStore "carl_001" = .httpError 404 (some "Character not found") := by
  decide

/-- Claim C8 amended: operations whose first store access is a write
(level-up, adjust-gold, adjust-hp) surface a store failure as a 500
service failure, distinct from 404; but every operation that reads first
(get, roll, use-item, add-item) swallows the ClientError inside
get_character_from_db and reports the same 404 used for not-found. -/
theorem c8_amended_failure_split (s : Store) (cid : String) (amount : Int)
    (hfail : s.failing = true) :
    get_character s cid = .httpError 404 (some "Character not found")
  ∧ (roll_skill s cid "stealth" 10).resp = .httpError 404 none
  ∧ (use_item s cid 0).resp = .httpError 404 none
  ∧ (add_item s cid potionItem).resp = .httpError 404 none
  ∧ (level_up s cid).resp = .httpError 500 (some "ClientError")
  ∧ (adjust_gold s cid amount).resp = .httpError 500 (some "ClientError")
  ∧ (adjust_hp s cid amount).resp = .httpError 500 (some "ClientError") := by
  refine ⟨?_, ?_, ?_, ?_, ?_, ?_, ?_⟩ <;>
    simp [get_character, get_character_from_db, dbGet, roll_skill, use_item, add_item,
      level_up, storeIncLevel, adjust_gold, storeIncGold, adjust_hp, storeIncHp, hfail]

/-- Witness for the amended C8 at the concrete failing store. -/
theorem c8_amended_witness :
    get_character failCarlStore "carl_001" = .httpError 404 (some "Character not found")
  ∧ (level_up failCarlStore "carl_001").resp = .httpError 500 (some "ClientError") := by
  have h := c8_amended_failure_split failCarlStore "carl_001" 1 rfl
  exact ⟨h.1, h.2.2.2.2.1⟩

/-- Claim C1 (code bug): a successful add-item broadcasts nothing at all
and returns a null body — the update/log broadcast block intended for the
endpoint is stranded, unreachable, after the return inside level_up
(main.py lines 205-210) and references a variable that is not in scope
there.  Here the concrete successful call produces an empty event list
instead of the claimed update-then-log pair. -/
theorem c1_add_item_emits_no_events :
    (add_item carlStore "carl_001" potionItem).resp = .ok ()
  ∧ (add_item carlStore "carl_001" potionItem).events = []
  ∧ invOf (add_item carlStore "carl_001" potionItem).store "carl_001" =
      some [⟨"Potion", some "Consumable", some 2, none⟩] := by
  decide

/-- Claim C2 counterexample: the manager actually instantiated in main.py
has no try/except around send.  With observers 1 and 2 registered for the
character and channel 1 failing, broadcast delivers to nobody (channel 2
is never attempted) and the exception escapes to the caller. -/
theorem c2_counterexample :
    CMmain.broadcast [("carl_001", [1, 2])] [1] "carl_001" = ([], some 1) := by
  decide

/-- Claim C2 amended: only the unused manager in connection_manager.py
catches per-channel failures: there a failing channel is skipped and
every other registered channel is still delivered to, and no exception
escapes (the function is total).  In the main.py manager used by every
endpoint, a failing registered channel makes the exception escape to the
caller, and when no registered channel fails it delivers to all. -/
theorem c2_amended_broadcast_behavior :
    (∀ (bad ws : List Nat) (w : Nat), w ∈ ws → w ∉ bad → w ∈ CMmod.sendAll bad ws)
  ∧ (∀ (bad ws : List Nat) (w : Nat), w ∈ ws → w ∈ bad →
      (CMmain.sendAll bad ws).2.isSome = true)
  ∧ (∀ (bad ws : List Nat), (∀ w ∈ ws, w ∉ bad) → CMmain.sendAll bad ws = (ws, none)) := by
  refine ⟨?_, ?_, ?_⟩
  · intro bad ws
    induction ws with
    | nil => intro w hw; simp at hw
    | cons a rest ih =>
      intro w hw hnb
      rw [CMmod.sendAll]
      by_cases ha : a ∈ bad
      · rw [if_pos ha]
        rcases List.mem_cons.mp hw with h1 | h2
        · exact absurd (h1 ▸ ha) hnb
        · exact ih w h2 hnb
      · rw [if_neg ha]
        rcases List.mem_cons.mp hw with h1 | h2
        · exact h1 ▸ List.mem_cons_self _ _
        · exact List.mem_cons_of_mem _ (ih w h2 hnb)
  · intro bad ws
    induction ws with
    | nil => intro w hw; simp at hw
    | cons a rest ih =>
      intro w hw hb
      rw [CMmain.sendAll]
      by_cases ha : a ∈ bad
      · rw [if_pos ha]; rfl
      · rw [if_neg ha]
        rcases List.mem_cons.mp hw with h1 | h2
        · exact absurd (h1 ▸ hb) ha
        · simpa using ih w h2 hb
  · intro bad ws
    induction ws with
    | nil => intro _; rfl
    | cons a rest ih =>
      intro hall
      have ha : a ∉ bad := hall a (List.mem_cons_self _ _)
      have hrest := ih (fun w hw => hall w (List.mem_cons_of_mem _ hw))
      rw [CMmain.sendAll, if_neg ha]
      simp [hrest]

/-- Witness for the amended C2: with channel 1 bad, the module manager
still delivers to channel 2, while the main.py manager lets the
exception escape. -/
theorem c2_amended_witness :
    2 ∈ CMmod.sendAll [1] [1, 2]
  ∧ (CMmain.sendAll [1] [1, 2]).2.isSome = true :=
  ⟨c2_amended_broadcast_behavior.1 [1] [1, 2] 2 (by decide) (by decide),
   c2_amended_broadcast_behavior.2.1 [1] [1, 2] 1 (by decide) (by decide)⟩

/-- Claim C9 counterexample: in the main.py manager actually used by the
websocket endpoint, disconnecting a channel that is not in the character
entry raises ValueError (modelled as none) instead of being a no-op. -/
theorem c9_counterexample :
    CMmain.disconnect [("carl_001", [1])] "carl_001" 2 = none := by
  decide

/-- Claim C9 amended: disconnect removes the channel when present, and is
a no-op when the character id has no entry; but when the entry exists and
the channel is absent from it, the main.py disconnect raises ValueError
(exactly then), while only the unused connection_manager.py disconnect is
the claimed no-op in that case. -/
theorem c9_amended_disconnect (r : Registry) (cid : String) (w : Nat) :
    (CMmain.disconnect r cid w = none ↔ ∃ ws, alookup cid r = some ws ∧ w ∉ ws)
  ∧ (alookup cid r = none →
      CMmain.disconnect r cid w = some r ∧ CMmod.disconnect r cid w = r)
  ∧ (∀ ws, alookup cid r = some ws → w ∈ ws →
      ∃ r2, CMmain.disconnect r cid w = some r2
        ∧ alookup cid r2 = (if ws.erase w = [] then none else some (ws.erase w)))
  ∧ (∀ ws, alookup cid r = some ws → w ∉ ws → ws ≠ [] →
      ∀ cid2, alookup cid2 (CMmod.disconnect r cid w) = alookup cid2 r) := by
  refine ⟨?_, ?_, ?_, ?_⟩
  · cases halk : alookup cid r with
    | none => simp [CMmain.disconnect, halk]
    | some ws =>
      by_cases hw : w ∈ ws
      · simp [CMmain.disconnect, halk, hw]
      · simp [CMmain.disconnect, halk, hw]
  · intro h
    constructor <;> simp [CMmain.disconnect, CMmod.disconnect, h]
  · intro ws hws hw
    refine ⟨if ws.erase w = [] then alistRemove cid r else alistSet cid (ws.erase w) r,
      ?_, ?_⟩
    · simp [CMmain.disconnect, hws, hw]
    · by_cases he : ws.erase w = []
      · simp [he, lookup_alistRemove_self]
      · simp [he, lookup_alistSet_self]
  · intro ws hws hw hne cid2
    have hres : CMmod.disconnect r cid w = alistSet cid ws r := by
      simp [CMmod.disconnect, hws, hw, hne]
    rw [hres]
    by_cases hc : cid2 = cid
    · subst hc
      rw [lookup_alistSet_self, hws]
    · exact lookup_alistSet_ne cid cid2 ws hc r

/-- Witness for the amended C9: disconnect for an unknown character id is
a no-op in the main.py manager. -/
theorem c9_amended_witness :
    CMmain.disconnect [("carl_001", [1])] "donut_001" 1 = some [("carl_001", [1])] :=
  ((c9_amended_disconnect [("carl_001", [1])] "donut_001" 1).2.1 (by decide)).1

/-! ## Registry invariant (for C4) -/

/-- No registry entry maps to the empty channel list. -/
def NoEmptyVals (r : Registry) : Prop := ∀ p ∈ r, p.2 ≠ []

theorem noEmptyVals_connect (r : Registry) (cid : String) (w : Nat)
    (h : NoEmptyVals r) : NoEmptyVals (CMmain.connect r cid w) := by
  intro p hp
  rcases mem_alistSet cid _ r p hp with h1 | h2
  · rw [h1]
    simp
  · exact h p h2

theorem noEmptyVals_disconnect_some (r r2 : Registry) (cid : String) (w : Nat)
    (hd : CMmain.disconnect r cid w = some r2) (h : NoEmptyVals r) : NoEmptyVals r2 := by
  unfold CMmain.disconnect at hd
  split at hd
  · cases hd
    exact h
  · split at hd
    · simp only [Option.some.injEq] at hd
      subst hd
      split
      · intro p hp
        exact h p (mem_alistRemove cid r p hp)
      · next he =>
        intro p hp
        rcases mem_alistSet cid _ r p hp with h1 | h2
        · rw [h1]; exact he
        · exact h p h2
    · cases hd

theorem noEmptyVals_disconnectMod (r : Registry) (cid : String) (w : Nat)
    (h : NoEmptyVals r) : NoEmptyVals (CMmod.disconnect r cid w) := by
  unfold CMmod.disconnect
  split
  · exact h
  · split <;> split
    · intro p hp
      exact h p (mem_alistRemove cid r p hp)
    · rename_i he
      intro p hp
      rcases mem_alistSet cid _ r p hp with h1 | h2
      · rw [h1]; exact he
      · exact h p h2
    · intro p hp
      exact h p (mem_alistRemove cid r p hp)
    · rename_i he
      intro p hp
      rcases mem_alistSet cid _ r p hp with h1 | h2
      · rw [h1]; exact he
      · exact h p h2

theorem noEmptyVals_step (r : Registry) (op : RegOp)
    (h : NoEmptyVals r) : NoEmptyVals (regStep r op) := by
  cases op with
  | connect cid w => exact noEmptyVals_connect r cid w h
  | disconnect cid w =>
    cases hd : CMmain.disconnect r cid w with
    | none => simpa [regStep, hd] using h
    | some r2 =>
      simpa [regStep, hd] using noEmptyVals_disconnect_some r r2 cid w hd h

theorem noEmptyVals_stepMod (r : Registry) (op : RegOp)
    (h : NoEmptyVals r) : NoEmptyVals (regStepMod r op) := by
  cases op with
  | connect cid w => exact noEmptyVals_connect r cid w h
  | disconnect cid w => exact noEmptyVals_disconnectMod r cid w h

theorem noEmptyVals_foldl :
    ∀ (ops : List RegOp) (r : Registry), NoEmptyVals r →
      NoEmptyVals (List.foldl regStep r ops) := by
  intro ops
  induction ops with
  | nil => intro r h; simpa using h
  | cons op rest ih =>
    intro r h
    exact ih _ (noEmptyVals_step r op h)

theorem noEmptyVals_foldlMod :
    ∀ (ops : List RegOp) (r : Registry), NoEmptyVals r →
      NoEmptyVals (List.foldl regStepMod r ops) := by
  intro ops
  induction ops with
  | nil => intro r h; simpa using h
  | cons op rest ih =>
    intro r h
    exact ih _ (noEmptyVals_stepMod r op h)

/-- Claim C4 (confirmed): after any finite sequence of connect and
disconnect operations from the empty registry, no key maps to an empty
channel list — an entry is created on first connect and a disconnect that
empties an entry deletes it in the same step — so the key set equals the
set of character ids with at least one live observer.  This holds both
for the main.py manager (where a bad disconnect raises, leaving the
registry unchanged) and for the connection_manager.py manager. -/
theorem c4_registry_no_empty_entry (ops : List RegOp) (cid : String) (ws : List Nat) :
    (alookup cid (runOps ops) = some ws → ws ≠ [])
  ∧ (alookup cid (runOpsMod ops) = some ws → ws ≠ []) := by
  constructor
  · intro h
    have hinv : NoEmptyVals (runOps ops) :=
      noEmptyVals_foldl ops [] (by intro p hp; simp at hp)
    exact hinv (cid, ws) (lookup_mem cid ws _ h)
  · intro h
    have hinv : NoEmptyVals (runOpsMod ops) :=
      noEmptyVals_foldlMod ops [] (by intro p hp; simp at hp)
    exact hinv (cid, ws) (lookup_mem cid ws _ h)

/-- Witness for C4: a connect, a duplicate-channel connect, a disconnect
and a raising disconnect leave carl with exactly one live channel, and
the theorem applies to yield nonemptiness. -/
theorem c4_registry_witness :
    alookup "carl_001"
      (runOps [RegOp.connect "carl_001" 1, RegOp.connect "carl_001" 2,
               RegOp.disconnect "carl_001" 1, RegOp.disconnect "carl_001" 7]) = some [2]
  ∧ [2] ≠ ([] : List Nat) :=
  ⟨by decide,
   (c4_registry_no_empty_entry
      [RegOp.connect "carl_001" 1, RegOp.connect "carl_001" 2,
       RegOp.disconnect "carl_001" 1, RegOp.disconnect "carl_001" 7]
      "carl_001" [2]).1 (by decide)⟩

/-- Claim C6 (confirmed): on an unknown character the use-item request
fails 404 with the store unchanged and nothing broadcast; on an
out-of-range index it fails 400 likewise; on a valid index, a stack with
count greater than 1 is decremented by exactly 1 keeping the stored
inventory length, and a stack with count 1 is removed, shrinking the
stored inventory length by exactly 1. -/
theorem c6_use_item_spec (s : Store) (cid : String) (j : Int) :
    (get_character_from_db s cid = none →
      use_item s cid j = ⟨.httpError 404 none, s, []⟩)
  ∧ (∀ c, get_character_from_db s cid = some c →
      ((j < 0 ∨ (c.inventory.length : Int) ≤ j) →
        use_item s cid j = ⟨.httpError 400 (some "Invalid item index"), s, []⟩)
      ∧ (∀ i : Nat, j = (i : Int) → i < c.inventory.length →
          (((c.inventory.getD i ⟨"", none, none, none⟩).count.getD 1 > 1 →
              invOf (use_item s cid j).store cid =
                some (c.inventory.set i
                  { c.inventory.getD i ⟨"", none, none, none⟩ with
                    count := some ((c.inventory.getD i ⟨"", none, none, none⟩).count.getD 1 - 1) })
            ∧ ((invOf (use_item s cid j).store cid).getD []).length = c.inventory.length)
          ∧ ((c.inventory.getD i ⟨"", none, none, none⟩).count.getD 1 = 1 →
              invOf (use_item s cid j).store cid = some (c.inventory.eraseIdx i)
            ∧ ((invOf (use_item s cid j).store cid).getD []).length
                = c.inventory.length - 1)))) := by
  constructor
  · intro h
    simp [use_item, h]
  · intro c hc
    constructor
    · intro hbad
      simp only [use_item, hc]
      rw [if_pos hbad]
    · intro i hj hi
      subst hj
      have hcond : ¬((i : Int) < 0 ∨ (c.inventory.length : Int) ≤ (i : Int)) := by
        push_neg
        exact ⟨Int.natCast_nonneg i, by exact_mod_cast hi⟩
      have hstore : (use_item s cid (i : Int)).store =
          storeSetInventory s cid
            (if (c.inventory.getD i ⟨"", none, none, none⟩).count.getD 1 > 1 then
              c.inventory.set i
                { c.inventory.getD i ⟨"", none, none, none⟩ with
                  count := some ((c.inventory.getD i ⟨"", none, none, none⟩).count.getD 1 - 1) }
            else c.inventory.eraseIdx i) := by
        simp only [use_item, hc, if_neg hcond, Int.toNat_natCast]
        split <;> rfl
      constructor
      · intro hgt
        have hst : (use_item s cid (i : Int)).store =
            storeSetInventory s cid (c.inventory.set i
              { c.inventory.getD i ⟨"", none, none, none⟩ with
                count := some ((c.inventory.getD i ⟨"", none, none, none⟩).count.getD 1 - 1) }) := by
          rw [hstore, if_pos hgt]
        constructor
        · rw [hst, invOf_storeSetInventory]
        · rw [hst, invOf_storeSetInventory]
          simp
      · intro heq
        have hngt : ¬((c.inventory.getD i ⟨"", none, none, none⟩).count.getD 1 > 1) := by
          rw [heq]
          exact lt_irrefl 1
        have hst : (use_item s cid (i : Int)).store =
            storeSetInventory s cid (c.inventory.eraseIdx i) := by
          rw [hstore, if_neg hngt]
        constructor
        · rw [hst, invOf_storeSetInventory]
        · rw [hst, invOf_storeSetInventory]
          simp [List.length_eraseIdx, hi]

/-- Witness for C6: using the count-3 potion leaves two potions and the
scroll; using the count-1 scroll removes its entry; index 5 is rejected
with the store unchanged and no broadcast. -/
theorem c6_use_item_spec_witness :
    invOf (use_item invStore "carl_001" 0).store "carl_001" =
      some [⟨"Potion", some "Consumable", some 2, none⟩,
            ⟨"Scroll", some "Consumable", some 1, none⟩]
  ∧ invOf (use_item invStore "carl_001" 1).store "carl_001" =
      some [⟨"Potion", some "Consumable", some 3, none⟩]
  ∧ use_item invStore "carl_001" 5 =
      ⟨.httpError 400 (some "Invalid item index"), invStore, []⟩ := by
  refine ⟨?_, ?_, ?_⟩
  · have h := (((c6_use_item_spec invStore "carl_001" 0).2 (projectItem invRaw)
      (by decide)).2 0 rfl (by decide)).1 (by decide)
    exact h.1.trans (by decide)
  · have h := (((c6_use_item_spec invStore "carl_001" 1).2 (projectItem invRaw)
      (by decide)).2 1 rfl (by decide)).2 (by decide)
    exact h.1.trans (by decide)
  · exact ((c6_use_item_spec invStore "carl_001" 5).2 (projectItem invRaw)
      (by decide)).1 (by decide)

end Crawler
